import Mathlib

/-!
Shallow embedding of src/server.js, an Express upload orchestrator for the
Shopify Admin API: the MIME-type classifier, the staged-upload multipart form
construction, the phase sequencing of the POST /upload handler, and the
readiness polling loop. JavaScript truthiness on strings (undefined, null and
the empty string are falsy) is modelled explicitly wherever the source relies
on it, and the platform and storage backend are modelled as data supplied to
the handler (one value per outbound call).
-/

/-- JavaScript String.prototype.startsWith, as a character-sequence prefix
test, as used at server.js lines 62-63. -/
def jsStartsWith (s p : String) : Bool := p.data.isPrefixOf s.data

/-- Truthiness of a JavaScript string-or-undefined value: undefined, null and
the empty string are falsy, every other string is truthy. -/
def jsTruthyStr : Option String → Bool
  | none => false
  | some s => s != ""

/-- JavaScript x || d for a string-or-undefined x, as in the expression
lastStatus || UNKNOWN at server.js line 200. -/
def jsOr : Option String → String → String
  | none, d => d
  | some s, d => if s = "" then d else s

/-- getShopifyContentType (server.js lines 61-65). -/
def getShopifyContentType (mimetype : String) : String :=
  if jsStartsWith mimetype "video/" then "VIDEO"
  else if jsStartsWith mimetype "image/" then "IMAGE"
  else "FILE"

/-- The image sub-object of a MediaImage polling node (server.js line 159). -/
structure ImageField where
  url : Option String
deriving DecidableEq

/-- One entry of the sources list of a Video polling node (server.js
line 163). -/
structure VideoSource where
  url : Option String
  format : Option String
deriving DecidableEq

/-- A non-null node returned by one polling query (server.js lines 149-167):
the typename discriminator plus the fields the inline fragments may
contribute; a field a fragment did not supply is none. -/
structure PollNode where
  typename : String
  fileStatus : Option String
  url : Option String
  image : Option ImageField
  sources : Option (List VideoSource)
deriving DecidableEq

/-- The optional-chaining read of the first video source URL
(server.js lines 188-189). -/
def firstSourceUrl (n : PollNode) : Option String :=
  (n.sources.bind List.head?).bind VideoSource.url

/-- The kind-specific URL extraction attempted inside the READY branch of the
polling loop (server.js lines 180-191): each branch requires the matching
typename and a truthy URL field. -/
def kindUrl (n : PollNode) : Option String :=
  if n.typename = "GenericFile" ∧ jsTruthyStr n.url = true then n.url
  else if n.typename = "MediaImage" ∧ jsTruthyStr (n.image.bind ImageField.url) = true then
    n.image.bind ImageField.url
  else if n.typename = "Video" ∧ jsTruthyStr (firstSourceUrl n) = true then
    firstSourceUrl n
  else none

/-- A polling observation on which the loop breaks with a final URL: status
READY together with an extractable kind-specific URL. -/
def nodeStops (n : PollNode) : Bool :=
  if n.fileStatus = some "READY" then (kindUrl n).isSome else false

/-- State of the finalUrl and lastStatus variables when the polling loop
exits, together with the number of status queries the loop performed. -/
structure PollOutcome where
  finalUrl : Option String
  lastStatus : Option String
  queries : Nat
deriving DecidableEq

/-- The polling loop of server.js lines 172-195, from loop index i with the
given number of remaining iterations and the current value of lastStatus.
platform j is the node (null modelled as none) returned by the j-th status
query; every iteration performs exactly one query before any break, so the
loop index doubles as the number of queries made so far. A null node breaks
before lastStatus is reassigned (line 176 precedes line 177). -/
def pollFrom (platform : Nat → Option PollNode) : Nat → Nat → Option String → PollOutcome
  | i, 0, lastStatus => ⟨none, lastStatus, i⟩
  | i, remaining + 1, lastStatus =>
    match platform i with
    | none => ⟨none, lastStatus, i + 1⟩
    | some node =>
      if node.fileStatus = some "READY" then
        match kindUrl node with
        | some u => ⟨some u, node.fileStatus, i + 1⟩
        | none => pollFrom platform (i + 1) remaining node.fileStatus
      else pollFrom platform (i + 1) remaining node.fileStatus

/-- The whole polling loop (server.js lines 169-195): finalUrl and lastStatus
start as null and the loop runs at most POLL_ATTEMPTS iterations. -/
def runPoll (platform : Nat → Option PollNode) (attempts : Nat) : PollOutcome :=
  pollFrom platform 0 attempts none

/-- Default POLL_ATTEMPTS (server.js line 26): 30 when the environment
variable is unset. -/
def defaultPollAttempts : Nat := 30

/-- One userErrors entry (field, message), carried through to the response
verbatim by the handler. -/
structure UserError where
  field : Option (List String)
  message : String
deriving DecidableEq

/-- JSON body shapes the POST /upload handler can produce. -/
inductive ResponseBody
  | errorMsg (error : String)
  | errorsArr (errors : List UserError)
  | errorDetails (error details : String)
  | errorStatus (error status : String)
  | urlBody (url : String)
deriving DecidableEq

/-- An HTTP response of the endpoint: status code and JSON body. -/
structure HttpResponse where
  status : Nat
  body : ResponseBody
deriving DecidableEq

/-- The code after the polling loop (server.js lines 197-205): when finalUrl
is falsy, 500 with the last observed status defaulted to UNKNOWN; otherwise
200 with the URL. -/
def pollHttp (o : PollOutcome) : HttpResponse :=
  if jsTruthyStr o.finalUrl = false then
    ⟨500, .errorStatus "File did not become READY in time" (jsOr o.lastStatus "UNKNOWN")⟩
  else ⟨200, .urlBody (o.finalUrl.getD "")⟩

/-- One (name, value) form parameter of a staged target (server.js line 80). -/
structure StagedParam where
  name : String
  value : String
deriving DecidableEq

/-- One staged target returned by stagedUploadsCreate (server.js line 80):
upload URL, durable resource URL, ordered form parameters. -/
structure StagedTarget where
  url : String
  resourceUrl : String
  parameters : List StagedParam
deriving DecidableEq

/-- The stagedUploadsCreate payload (server.js lines 79-82). -/
structure StagedUploadsCreatePayload where
  stagedTargets : List StagedTarget
  userErrors : List UserError
deriving DecidableEq

/-- The storage backend response to the multipart POST (server.js
lines 106-113): HTTP status and response body text. -/
structure StorageResponse where
  status : Nat
  body : String
deriving DecidableEq

/-- Response.ok of fetch: the status is in the 2xx range. -/
def StorageResponse.ok (r : StorageResponse) : Bool :=
  decide (200 ≤ r.status) && decide (r.status < 300)

/-- One created file of the fileCreate payload (server.js lines 123-128):
typename discriminator and identifier. -/
structure CreatedFile where
  typename : String
  id : String
deriving DecidableEq

/-- The fileCreate payload (server.js lines 122-130). -/
structure FileCreatePayload where
  files : List CreatedFile
  userErrors : List UserError
deriving DecidableEq

/-- req.file as produced by multer (server.js line 74): buffer bytes,
original filename, MIME type and byte size. -/
structure FilePart where
  buffer : List Nat
  originalname : String
  mimetype : String
  size : Nat
deriving DecidableEq

/-- One appended field of the multipart FormData (server.js lines 102-104):
either a plain (name, value) parameter or the file field carrying raw bytes
with a filename and content type. -/
inductive FormField
  | param (name value : String)
  | file (name : String) (buffer : List Nat) (filename contentType : String)
deriving DecidableEq

/-- The uploadForm construction (server.js lines 102-104): a fresh FormData,
one append per staged parameter in order (forEach), then a final append of
the file field named file with the buffer, original filename and MIME type. -/
def buildUploadForm (target : StagedTarget) (f : FilePart) : List FormField :=
  let form : List FormField := []
  let form := target.parameters.foldl (fun acc p => acc ++ [FormField.param p.name p.value]) form
  form ++ [FormField.file "file" f.buffer f.originalname f.mimetype]

/-- Record of the outbound calls one POST /upload invocation performed:
whether the staging mutation ran, the storage POST with its URL and multipart
body when it ran, whether the fileCreate mutation ran, and the number of
polling status queries. -/
structure CallLog where
  stagedCalled : Bool
  storageCall : Option (String × List FormField)
  fileCreateCalled : Bool
  pollQueries : Nat
deriving DecidableEq

/-- The data the platform and the storage backend return to one POST /upload
invocation when each RPC transport succeeds: the staging payload, the storage
response, the fileCreate payload, the per-attempt polling nodes, and the
configured POLL_ATTEMPTS. -/
structure UploadEnv where
  stagedUploadsCreate : StagedUploadsCreatePayload
  storageRes : StorageResponse
  fileCreate : FileCreatePayload
  poll : Nat → Option PollNode
  pollAttempts : Nat

/-- Message of the TypeError thrown at server.js line 100 when stagedTargets
is empty: indexing [0] yields undefined and reading target.resourceUrl
throws (the exact wording of the message is defined by the JavaScript
runtime, not by the source). -/
def missingTargetMessage : String :=
  "Cannot read properties of undefined (reading resourceUrl)"

/-- Message of the TypeError thrown at server.js line 147 when the fileCreate
files list is empty and created is undefined (wording is defined by the
JavaScript runtime). -/
def missingCreatedMessage : String :=
  "Cannot read properties of undefined (reading __typename)"

/-- The POST /upload handler (server.js lines 67-211) as a function of the
request file and the environment, returning the HTTP response paired with the
log of outbound calls. Thrown TypeErrors reach the catch-all handler at
server.js lines 207-210, which responds 500 with the error message. -/
def uploadHandler (reqFile : Option FilePart) (env : UploadEnv) : HttpResponse × CallLog :=
  match reqFile with
  | none => (⟨400, .errorMsg "No file provided"⟩, ⟨false, none, false, 0⟩)
  | some f =>
    if env.stagedUploadsCreate.userErrors.length ≠ 0 then
      (⟨422, .errorsArr env.stagedUploadsCreate.userErrors⟩, ⟨true, none, false, 0⟩)
    else
      match env.stagedUploadsCreate.stagedTargets.head? with
      | none => (⟨500, .errorMsg missingTargetMessage⟩, ⟨true, none, false, 0⟩)
      | some target =>
        let uploadForm := buildUploadForm target f
        if env.storageRes.ok = false then
          (⟨env.storageRes.status, .errorDetails "Storage upload failed" env.storageRes.body⟩,
            ⟨true, some (target.url, uploadForm), false, 0⟩)
        else if env.fileCreate.userErrors.length ≠ 0 then
          (⟨422, .errorsArr env.fileCreate.userErrors⟩,
            ⟨true, some (target.url, uploadForm), true, 0⟩)
        else
          match env.fileCreate.files.head? with
          | none => (⟨500, .errorMsg missingCreatedMessage⟩,
              ⟨true, some (target.url, uploadForm), true, 0⟩)
          | some _created =>
            let o := runPoll env.poll env.pollAttempts
            (pollHttp o, ⟨true, some (target.url, uploadForm), true, o.queries⟩)

/-- fileStatus of the node observed by the j-th polling query; none when that
node is null or carries no status. -/
def statusAt (platform : Nat → Option PollNode) (j : Nat) : Option String :=
  (platform j).bind PollNode.fileStatus

/-- The value lastStatus holds after the loop, started at index i with the
given initial value, has consumed k attempts without breaking: the status of
the last consumed node, or the initial value when k = 0. -/
def lastStatusFrom (platform : Nat → Option PollNode) (i k : Nat) (ls : Option String) :
    Option String :=
  match k with
  | 0 => ls
  | j + 1 => statusAt platform (i + j)

/-- lastStatus after the loop has consumed its first k attempts without
breaking: null (none) when k = 0, else the status of the node of query
k - 1. -/
def lastStatusAfter (platform : Nat → Option PollNode) (k : Nat) : Option String :=
  lastStatusFrom platform 0 k none

/-- A truthy optional string is a non-empty string. -/
theorem jsTruthyStr_some {s : String} (h : jsTruthyStr (some s) = true) : s ≠ "" := by
  simpa [jsTruthyStr] using h

/-- A URL extracted by the READY branch is non-empty, because every branch of
the extraction demands a truthy URL field. -/
theorem kindUrl_ne_empty (n : PollNode) (u : String) (h : kindUrl n = some u) : u ≠ "" := by
  rw [kindUrl] at h
  split at h
  next hc => exact jsTruthyStr_some (h ▸ hc.2)
  next =>
    split at h
    next hc => exact jsTruthyStr_some (h ▸ hc.2)
    next =>
      split at h
      next hc => exact jsTruthyStr_some (h ▸ hc.2)
      next => exact absurd h (by simp)

/-- One non-breaking iteration: a non-null node that is not READY with an
extractable URL consumes one attempt, and the loop continues with lastStatus
set to the status of that node. -/
theorem pollFrom_step (platform : Nat → Option PollNode) (i r : Nat) (ls : Option String)
    (n : PollNode) (h1 : platform i = some n) (h2 : nodeStops n = false) :
    pollFrom platform i (r + 1) ls = pollFrom platform (i + 1) r n.fileStatus := by
  by_cases hr : n.fileStatus = some "READY"
  · have hk : kindUrl n = none := by
      rw [nodeStops, if_pos hr] at h2
      cases hku : kindUrl n with
      | none => rfl
      | some u => rw [hku] at h2; simp at h2
    simp [pollFrom, h1, hr, hk]
  · simp [pollFrom, h1, hr]

/-- Running the loop through k consecutive non-null, non-breaking attempts
consumes them all and continues with lastStatus updated accordingly. -/
theorem pollFrom_skip (platform : Nat → Option PollNode) :
    ∀ (k i r : Nat) (ls : Option String),
      (∀ j, j < k → ∃ n, platform (i + j) = some n ∧ nodeStops n = false) →
      pollFrom platform i (k + r) ls =
        pollFrom platform (i + k) r (lastStatusFrom platform i k ls) := by
  intro k
  induction k with
  | zero =>
    intro i r ls _
    simp [lastStatusFrom]
  | succ j ih =>
    intro i r ls h
    obtain ⟨n, hn, hs⟩ := h 0 (Nat.succ_pos j)
    rw [Nat.add_zero] at hn
    rw [show j + 1 + r = j + r + 1 from by omega]
    rw [pollFrom_step platform i (j + r) ls n hn hs]
    have h2 : ∀ m, m < j → ∃ n2, platform (i + 1 + m) = some n2 ∧ nodeStops n2 = false := by
      intro m hm
      have h3 := h (m + 1) (by omega)
      rw [show i + (m + 1) = i + 1 + m from by omega] at h3
      exact h3
    rw [ih (i + 1) r n.fileStatus h2]
    rw [show i + 1 + j = i + (j + 1) from by omega]
    congr 1
    cases j with
    | zero => simp [lastStatusFrom, statusAt, hn]
    | succ m =>
      simp only [lastStatusFrom]
      congr 1
      omega

/-- The two recognised MIME prefixes are mutually exclusive: no string starts
with both video/ and image/. -/
theorem not_video_and_image (m : String) :
    ¬(jsStartsWith m "video/" = true ∧ jsStartsWith m "image/" = true) := by
  rintro ⟨hv, hi⟩
  rw [jsStartsWith, List.isPrefixOf_iff_prefix] at hv hi
  obtain ⟨t1, h1⟩ := hv
  obtain ⟨t2, h2⟩ := hi
  rw [← h2] at h1
  simp at h1

/-- Folding singleton appends over a list from any accumulator is the
accumulator followed by the mapped list. -/
theorem foldl_append_singleton {α β : Type} (g : α → β) :
    ∀ (l : List α) (acc : List β),
      l.foldl (fun a p => a ++ [g p]) acc = acc ++ l.map g := by
  intro l
  induction l with
  | nil => intro acc; simp
  | cons x xs ih => intro acc; simp [ih]

/-- A storage response outside the 2xx range is not ok. -/
theorem storage_not_ok {r : StorageResponse} (h : ¬(200 ≤ r.status ∧ r.status < 300)) :
    r.ok = false := by
  simp only [StorageResponse.ok, Bool.and_eq_false_iff, decide_eq_false_iff_not]
  omega

/-- A GenericFile node that is still processing. -/
def pendingNode : PollNode := ⟨"GenericFile", some "PROCESSING", none, none, none⟩

/-- A platform on which every status query observes the pending node. -/
def alwaysPending : Nat → Option PollNode := fun _ => some pendingNode

/-- A GenericFile node whose observed fileStatus is the empty string. -/
def emptyStatusNode : PollNode := ⟨"GenericFile", some "", none, none, none⟩

/-- A platform on which every status query observes the empty-status node. -/
def emptyStatusPlatform : Nat → Option PollNode := fun _ => some emptyStatusNode

/-- A platform whose first query observes the pending node and whose later
queries observe a null node (the asset vanished after one observation). -/
def vanishPlatform : Nat → Option PollNode := fun i => if i = 0 then some pendingNode else none

/-- A MediaImage node that is READY but whose nested image object carries no
url field. -/
def readyNoUrlNode : PollNode := ⟨"MediaImage", some "READY", none, some ⟨none⟩, none⟩

/-- A platform on which every status query observes the READY-but-urlless
MediaImage node. -/
def readyNoUrlPlatform : Nat → Option PollNode := fun _ => some readyNoUrlNode

/-- A Video node that is READY with a first source URL. -/
def readyVideoNode : PollNode :=
  ⟨"Video", some "READY", none, none, some [⟨some "https://cdn/video.mp4", some "mp4"⟩]⟩

/-- A platform that observes the pending node once and then the ready video
node. -/
def readyAtSecond : Nat → Option PollNode :=
  fun i => if i = 0 then some pendingNode else some readyVideoNode

/-- Claim C1, amended: when every attempt observes a non-null node that is
never READY with an extractable URL, the loop performs exactly the configured
number of status queries, and the 500 timeout response reports the status
observed on the last attempt when that status is present and non-empty, and
UNKNOWN otherwise (server.js lines 172-201). -/
theorem upload_poll_exhausts_budget (platform : Nat → Option PollNode) (attempts : Nat)
    (h : ∀ i, i < attempts → ∃ n, platform i = some n ∧ nodeStops n = false) :
    (runPoll platform attempts).queries = attempts ∧
    pollHttp (runPoll platform attempts) =
      ⟨500, .errorStatus "File did not become READY in time"
        (jsOr (lastStatusAfter platform attempts) "UNKNOWN")⟩ := by
  have h0 : ∀ j, j < attempts → ∃ n, platform (0 + j) = some n ∧ nodeStops n = false := by
    intro j hj
    simpa using h j hj
  have hs := pollFrom_skip platform attempts 0 0 none h0
  rw [Nat.add_zero, Nat.zero_add] at hs
  rw [runPoll, hs]
  exact ⟨rfl, by simp [pollFrom, pollHttp, jsTruthyStr, lastStatusAfter]⟩

/-- Witness for C1 at the default attempt ceiling: thirty PROCESSING
observations exhaust the budget with thirty queries and report PROCESSING. -/
theorem upload_poll_exhausts_budget_witness :
    (runPoll alwaysPending defaultPollAttempts).queries = defaultPollAttempts ∧
    pollHttp (runPoll alwaysPending defaultPollAttempts) =
      ⟨500, .errorStatus "File did not become READY in time" "PROCESSING"⟩ := by
  have h := upload_poll_exhausts_budget alwaysPending defaultPollAttempts
    (fun i _ => ⟨pendingNode, rfl, by decide⟩)
  exact ⟨h.1, by rw [h.2]; decide⟩

/-- Counterexample to claim C1 as stated: every attempt observes a non-null
node whose status is the empty string, never READY; a status was observed on
the last attempt, yet the reported status is UNKNOWN rather than that
observed status, because the source substitutes UNKNOWN for any falsy
lastStatus (server.js line 200). -/
theorem empty_status_counterexample :
    emptyStatusPlatform 0 = some emptyStatusNode ∧
    emptyStatusNode.fileStatus = some "" ∧
    nodeStops emptyStatusNode = false ∧
    (runPoll emptyStatusPlatform defaultPollAttempts).queries = defaultPollAttempts ∧
    pollHttp (runPoll emptyStatusPlatform defaultPollAttempts) =
      ⟨500, .errorStatus "File did not become READY in time" "UNKNOWN"⟩ ∧
    ("UNKNOWN" : String) ≠ "" := by
  decide

/-- Claim C2, amended: a null node on attempt k terminates the loop
immediately (k + 1 queries in total, none after the null observation), and
the 500 timeout response reports the status observed on the immediately
preceding attempt when that status is present and non-empty, and UNKNOWN
otherwise (so UNKNOWN when the null node arrives on the first attempt, or
when the preceding node carried an absent or empty status, even if some
still earlier attempt observed a truthy status, since line 177 overwrites
lastStatus unconditionally); it is not unconditionally UNKNOWN
(server.js lines 176-177 and 197-201). -/
theorem null_node_breaks (platform : Nat → Option PollNode) (attempts k : Nat)
    (hk : k < attempts) (hnull : platform k = none)
    (hbefore : ∀ i, i < k → ∃ n, platform i = some n ∧ nodeStops n = false) :
    (runPoll platform attempts).queries = k + 1 ∧
    pollHttp (runPoll platform attempts) =
      ⟨500, .errorStatus "File did not become READY in time"
        (jsOr (lastStatusAfter platform k) "UNKNOWN")⟩ := by
  have h0 : ∀ j, j < k → ∃ n, platform (0 + j) = some n ∧ nodeStops n = false := by
    intro j hj
    simpa using hbefore j hj
  obtain ⟨r, hr⟩ : ∃ r, attempts = k + (r + 1) := ⟨attempts - k - 1, by omega⟩
  have hs := pollFrom_skip platform k 0 (r + 1) none h0
  rw [Nat.zero_add] at hs
  rw [runPoll, hr, hs]
  constructor
  · simp [pollFrom, hnull]
  · simp [pollFrom, hnull, pollHttp, jsTruthyStr, lastStatusAfter]

/-- Witness for the amended C2: one PROCESSING observation, then a null node;
the loop stops after the second query and reports PROCESSING. -/
theorem null_node_breaks_witness :
    (runPoll vanishPlatform defaultPollAttempts).queries = 1 + 1 ∧
    pollHttp (runPoll vanishPlatform defaultPollAttempts) =
      ⟨500, .errorStatus "File did not become READY in time" "PROCESSING"⟩ := by
  have h := null_node_breaks vanishPlatform defaultPollAttempts 1 (by decide) (by decide)
    (fun i hi => by
      have hi0 : i = 0 := by omega
      subst hi0
      exact ⟨pendingNode, rfl, by decide⟩)
  exact ⟨h.1, by rw [h.2]; decide⟩

/-- Counterexample to claim C2 as stated: the platform returns a null node on
the second attempt after a PROCESSING observation on the first; the loop does
terminate immediately (two queries), but the timeout response carries
PROCESSING, not UNKNOWN, because the break at server.js line 176 happens
before lastStatus is reassigned and line 200 reuses the earlier value. -/
theorem null_node_counterexample :
    vanishPlatform 1 = none ∧
    vanishPlatform 0 = some pendingNode ∧
    (runPoll vanishPlatform defaultPollAttempts).queries = 2 ∧
    pollHttp (runPoll vanishPlatform defaultPollAttempts) =
      ⟨500, .errorStatus "File did not become READY in time" "PROCESSING"⟩ ∧
    ("PROCESSING" : String) ≠ "UNKNOWN" := by
  decide

/-- Claim C3: an observation that is READY but has no extractable
kind-specific URL does not terminate the loop; it consumes the attempt and
the loop continues exactly as it does for a still-pending observation, with
lastStatus updated to the observed status (server.js lines 179-195). -/
theorem ready_without_url_continues (platform : Nat → Option PollNode) (i r : Nat)
    (ls : Option String) (n : PollNode) (h1 : platform i = some n)
    (h2 : n.fileStatus = some "READY") (h3 : kindUrl n = none) :
    pollFrom platform i (r + 1) ls = pollFrom platform (i + 1) r n.fileStatus := by
  apply pollFrom_step platform i r ls n h1
  rw [nodeStops, if_pos h2, h3]
  rfl

/-- Witness for C3: a READY MediaImage with no nested image url consumes the
first of five attempts and the loop continues from the second attempt. -/
theorem ready_without_url_continues_witness :
    pollFrom readyNoUrlPlatform 0 (4 + 1) none = pollFrom readyNoUrlPlatform 1 4 (some "READY") :=
  ready_without_url_continues readyNoUrlPlatform 0 4 none readyNoUrlNode rfl rfl (by decide)

/-- Claim C4: when attempt k is the first to observe READY together with an
extractable kind-specific URL, the loop stops there with exactly k + 1
queries and the endpoint responds 200 with that URL, whatever non-breaking
statuses the earlier attempts observed (server.js lines 172-205). -/
theorem ready_with_url_stops (platform : Nat → Option PollNode) (attempts k : Nat)
    (n : PollNode) (u : String) (hk : k < attempts)
    (hbefore : ∀ i, i < k → ∃ m, platform i = some m ∧ nodeStops m = false)
    (hn : platform k = some n) (hready : n.fileStatus = some "READY")
    (hurl : kindUrl n = some u) :
    (runPoll platform attempts).queries = k + 1 ∧
    pollHttp (runPoll platform attempts) = ⟨200, .urlBody u⟩ := by
  have h0 : ∀ j, j < k → ∃ m, platform (0 + j) = some m ∧ nodeStops m = false := by
    intro j hj
    simpa using hbefore j hj
  obtain ⟨r, hr⟩ : ∃ r, attempts = k + (r + 1) := ⟨attempts - k - 1, by omega⟩
  have hs := pollFrom_skip platform k 0 (r + 1) none h0
  rw [Nat.zero_add] at hs
  rw [runPoll, hr, hs]
  have hne : u ≠ "" := kindUrl_ne_empty n u hurl
  constructor
  · simp [pollFrom, hn, hready, hurl]
  · simp [pollFrom, hn, hready, hurl, pollHttp, jsTruthyStr, hne]

/-- Witness for C4: PROCESSING on the first attempt, READY video with a first
source URL on the second; the loop stops after two queries and the endpoint
responds 200 with the video URL. -/
theorem ready_with_url_stops_witness :
    (runPoll readyAtSecond defaultPollAttempts).queries = 1 + 1 ∧
    pollHttp (runPoll readyAtSecond defaultPollAttempts) =
      ⟨200, .urlBody "https://cdn/video.mp4"⟩ := by
  have h := ready_with_url_stops readyAtSecond defaultPollAttempts 1 readyVideoNode
    "https://cdn/video.mp4" (by decide)
    (fun i hi => by
      have hi0 : i = 0 := by omega
      subst hi0
      exact ⟨pendingNode, rfl, by decide⟩)
    rfl rfl (by decide)
  exact h

/-- A concrete request file: cat.png, image/png, 1024 bytes (a small buffer
stands in for the raw bytes). -/
def catPng : FilePart := ⟨[137, 80, 78, 71], "cat.png", "image/png", 1024⟩

/-- A concrete staged target with one signed form parameter. -/
def sampleTarget : StagedTarget :=
  ⟨"https://storage.example/upload", "https://cdn.example/resource/cat.png", [⟨"key", "tmp/abc"⟩]⟩

/-- An environment whose staging succeeds and whose storage backend rejects
the multipart POST with 403 Forbidden. -/
def forbiddenEnv : UploadEnv :=
  ⟨⟨[sampleTarget], []⟩, ⟨403, "Forbidden"⟩, ⟨[], []⟩, fun _ => none, defaultPollAttempts⟩

/-- An environment whose staging call reports one userErrors entry. -/
def stagingErrorEnv : UploadEnv :=
  ⟨⟨[], [⟨some ["filename"], "required"⟩]⟩, ⟨204, ""⟩, ⟨[], []⟩, fun _ => none,
    defaultPollAttempts⟩

/-- An environment whose staging call returns no userErrors and no staged
targets. -/
def emptyTargetsEnv : UploadEnv :=
  ⟨⟨[], []⟩, ⟨204, ""⟩, ⟨[], []⟩, fun _ => none, defaultPollAttempts⟩

/-- Claim C5: when staging succeeds and the storage backend answers outside
the 2xx range, the handler responds with the backend status code, the fixed
error message and the backend body as details, and neither the fileCreate
mutation nor any polling query runs (server.js lines 112-115). -/
theorem storage_failure_propagated (f : FilePart) (env : UploadEnv) (target : StagedTarget)
    (hstage : env.stagedUploadsCreate.userErrors = [])
    (htarget : env.stagedUploadsCreate.stagedTargets.head? = some target)
    (hfail : ¬(200 ≤ env.storageRes.status ∧ env.storageRes.status < 300)) :
    (uploadHandler (some f) env).1 =
      ⟨env.storageRes.status, .errorDetails "Storage upload failed" env.storageRes.body⟩ ∧
    (uploadHandler (some f) env).2.fileCreateCalled = false ∧
    (uploadHandler (some f) env).2.pollQueries = 0 := by
  have hok := storage_not_ok hfail
  simp [uploadHandler, hstage, htarget, hok]

/-- Witness for C5: the 403 Forbidden environment yields a 403 response with
details Forbidden and no registration or polling. -/
theorem storage_failure_propagated_witness :
    (uploadHandler (some catPng) forbiddenEnv).1 =
      ⟨403, .errorDetails "Storage upload failed" "Forbidden"⟩ ∧
    (uploadHandler (some catPng) forbiddenEnv).2.fileCreateCalled = false ∧
    (uploadHandler (some catPng) forbiddenEnv).2.pollQueries = 0 := by
  have h := storage_failure_propagated catPng forbiddenEnv sampleTarget rfl rfl (by decide)
  exact h

/-- Claim C6, amended: on a storage failure the HTTP status of the response
equals the storage backend status code itself (500 only when the backend
returned 500), not unconditionally 500 (server.js line 114). -/
theorem storage_failure_status (f : FilePart) (env : UploadEnv) (target : StagedTarget)
    (hstage : env.stagedUploadsCreate.userErrors = [])
    (htarget : env.stagedUploadsCreate.stagedTargets.head? = some target)
    (hfail : ¬(200 ≤ env.storageRes.status ∧ env.storageRes.status < 300)) :
    (uploadHandler (some f) env).1.status = env.storageRes.status := by
  have hok := storage_not_ok hfail
  simp [uploadHandler, hstage, htarget, hok]

/-- Witness for the amended C6: the 403 environment produces status 403. -/
theorem storage_failure_status_witness :
    (uploadHandler (some catPng) forbiddenEnv).1.status = 403 :=
  storage_failure_status catPng forbiddenEnv sampleTarget rfl rfl (by decide)

/-- Counterexample to claim C6 as stated: the storage backend answers 403
with body Forbidden, and the endpoint responds 403, not 500, carrying the
backend status code through res.status at server.js line 114. -/
theorem storage_status_counterexample :
    forbiddenEnv.storageRes.status = 403 ∧
    forbiddenEnv.storageRes.ok = false ∧
    (uploadHandler (some catPng) forbiddenEnv).1 =
      ⟨403, .errorDetails "Storage upload failed" "Forbidden"⟩ ∧
    (uploadHandler (some catPng) forbiddenEnv).1.status ≠ 500 := by
  decide

/-- Claim C7: the multipart body is exactly the staged parameters, mapped in
the order supplied, followed by exactly one final file field carrying the raw
bytes with the original filename and MIME type; in particular it has one more
field than the parameter list (server.js lines 102-104). -/
theorem upload_form_fields (target : StagedTarget) (f : FilePart) :
    buildUploadForm target f =
      target.parameters.map (fun p => FormField.param p.name p.value) ++
        [FormField.file "file" f.buffer f.originalname f.mimetype] ∧
    (buildUploadForm target f).length = target.parameters.length + 1 := by
  have hform : buildUploadForm target f =
      target.parameters.map (fun p => FormField.param p.name p.value) ++
        [FormField.file "file" f.buffer f.originalname f.mimetype] := by
    rw [buildUploadForm]
    rw [foldl_append_singleton (fun p : StagedParam => FormField.param p.name p.value)
      target.parameters []]
    simp
  refine ⟨hform, ?_⟩
  rw [hform]
  simp

/-- Claim C8: the content-type classification is total and deterministic on
strings: a video/ prefix yields VIDEO, an image/ prefix yields IMAGE (the two
prefixes being mutually exclusive), and everything else yields FILE
(server.js lines 61-65). -/
theorem content_type_classification (m : String) :
    (jsStartsWith m "video/" = true → getShopifyContentType m = "VIDEO") ∧
    (jsStartsWith m "image/" = true → getShopifyContentType m = "IMAGE") ∧
    (jsStartsWith m "video/" = false → jsStartsWith m "image/" = false →
      getShopifyContentType m = "FILE") := by
  refine ⟨?_, ?_, ?_⟩
  · intro h
    simp [getShopifyContentType, h]
  · intro h
    have hv : jsStartsWith m "video/" = false := by
      cases hb : jsStartsWith m "video/" with
      | false => rfl
      | true => exact absurd ⟨hb, h⟩ (not_video_and_image m)
    simp [getShopifyContentType, hv, h]
  · intro h1 h2
    simp [getShopifyContentType, h1, h2]

/-- Witness for C8 on one representative of each class. -/
theorem content_type_classification_witness :
    getShopifyContentType "video/mp4" = "VIDEO" ∧
    getShopifyContentType "image/png" = "IMAGE" ∧
    getShopifyContentType "application/pdf" = "FILE" :=
  ⟨(content_type_classification "video/mp4").1 (by decide),
   (content_type_classification "image/png").2.1 (by decide),
   (content_type_classification "application/pdf").2.2 (by decide) (by decide)⟩

/-- Claim C9: a non-empty userErrors list from the staging call makes the
handler respond 422 with exactly that errors array, before the storage POST,
the fileCreate mutation or any polling query runs (server.js lines 94-97). -/
theorem staging_errors_halt (f : FilePart) (env : UploadEnv)
    (h : env.stagedUploadsCreate.userErrors ≠ []) :
    (uploadHandler (some f) env).1 = ⟨422, .errorsArr env.stagedUploadsCreate.userErrors⟩ ∧
    (uploadHandler (some f) env).2 = ⟨true, none, false, 0⟩ := by
  have hlen : env.stagedUploadsCreate.userErrors.length ≠ 0 := by
    simpa using h
  simp [uploadHandler, hlen]

/-- Witness for C9: one userErrors entry (field filename, message required)
produces 422 with that array and no further outbound calls. -/
theorem staging_errors_halt_witness :
    (uploadHandler (some catPng) stagingErrorEnv).1 =
      ⟨422, .errorsArr [⟨some ["filename"], "required"⟩]⟩ ∧
    (uploadHandler (some catPng) stagingErrorEnv).2 = ⟨true, none, false, 0⟩ :=
  staging_errors_halt catPng stagingErrorEnv (by decide)

/-- Claim C10: with empty userErrors and empty stagedTargets the handler
still returns a value: reading the first target throws, the catch-all handler
at server.js lines 207-210 answers 500, and the JSON body carries an error
message. -/
theorem empty_targets_caught (f : FilePart) (env : UploadEnv)
    (h1 : env.stagedUploadsCreate.userErrors = [])
    (h2 : env.stagedUploadsCreate.stagedTargets = []) :
    (uploadHandler (some f) env).1.status = 500 ∧
    ∃ msg, (uploadHandler (some f) env).1.body = .errorMsg msg := by
  refine ⟨?_, missingTargetMessage, ?_⟩ <;> simp [uploadHandler, h1, h2]

/-- Witness for C10: the concrete empty-targets environment yields 500 with
an error-message body. -/
theorem empty_targets_caught_witness :
    (uploadHandler (some catPng) emptyTargetsEnv).1.status = 500 ∧
    ∃ msg, (uploadHandler (some catPng) emptyTargetsEnv).1.body = ResponseBody.errorMsg msg :=
  empty_targets_caught catPng emptyTargetsEnv rfl rfl
